import Mathlib

/-!
Verification of the beagle-lang front end: a shallow embedding of the
type-checking stage (`src/typeck/src/lib.rs`) and the lexical scanner
(`src/frontend/src/lexer/mod.rs`), with theorems settling the frozen
claims about their specification.

Channels are modelled as lists: the inbound channel is the list of items
the receiver will observe before the channel is closed (a failed `recv`
corresponds to reaching the end of the list), and each outbound channel
is the list of items sent on it, in order.  Channel sends never fail in
the model (no receiver is ever dropped), so the code's
send-failure branches are not represented; the claims under study do not
concern channel faults.  A Rust `panic!`/`unwrap` abort is represented
explicitly by the `Panicky` result type where it is reachable.
-/

/-- Modelled from the spec: `BiPos` (crate `core`, module `pos`) is not under
`src/`.  The spec describes it as a span with independent start and end
(line, column) coordinates, with operations to advance the start column,
advance the end column, advance the line, and collapse (set start := end).
`Default` gives all-zero coordinates. -/
structure BiPos where
  startLine : Nat
  startCol : Nat
  endLine : Nat
  endCol : Nat
  deriving DecidableEq, Repr

instance : Inhabited BiPos := ⟨⟨0, 0, 0, 0⟩⟩

/-- Modelled from the spec: advance the column of the start coordinate
(the position update performed by the scanner's `advance`). -/
def BiPos.next_col (p : BiPos) : BiPos :=
  ⟨p.startLine, p.startCol + 1, p.endLine, p.endCol⟩

/-- Modelled from the spec: advance the column of the end coordinate
(the position update performed by the scanner's `advance_end`). -/
def BiPos.next_col_end (p : BiPos) : BiPos :=
  ⟨p.startLine, p.startCol, p.endLine + 0, p.endCol + 1⟩

/-- Modelled from the spec: advance the line (increments the line and resets
the column of the end coordinate; performed on a newline while skipping
whitespace). -/
def BiPos.next_line (p : BiPos) : BiPos :=
  ⟨p.startLine, p.startCol, p.endLine + 1, 0⟩

/-- Collapse of a span: start := end, as performed by
`self.current_pos.start = self.current_pos.end` after whitespace skipping. -/
def BiPos.collapse (p : BiPos) : BiPos :=
  ⟨p.endLine, p.endCol, p.endLine, p.endCol⟩

/-- Representation of an `f64` value parsed from a decimal literal: the
digits before and after the decimal point.  The programs under study never
compute with floating-point values — they only carry them — so only the
parsed syntactic content is modelled, not IEEE-754 arithmetic. -/
structure FloatRepr where
  intPart : List Char
  fracPart : List Char
  deriving DecidableEq, Repr

/-! ## Type checker data model

The `ir` and `notices` crates are not under `src/`; the types below are
modelled from the spec (§3 Data Model), keeping the names used by
`src/typeck/src/lib.rs`. -/

/-- Modelled from the spec: the primitive type kinds P of `Primitive(P)`
(spec §3: P ∈ Integer, Float, String, Bool, Unit, …). -/
inductive PrimitiveType where
  | Integer
  | Float
  | String
  | Bool
  | Unit
  deriving DecidableEq, Repr

/-- Modelled from the spec: a `TypeSignature` is Untyped, a Primitive kind,
or an opaque other/composite tag carried through unchanged by this stage. -/
inductive TypeSignature where
  | Untyped
  | Primitive (p : PrimitiveType)
  | Composite (tag : String)
  deriving DecidableEq, Repr

/-- Modelled from the spec: the HIR opcodes relevant to the type-checking
stage — literal carriers for Integer/Float/String/Bool, a function-parameter
declaration carrier, the terminal `Halt` sentinel, and an opaque constructor
for every other opcode (spec §3: "other opcodes are opaque to this stage"). -/
inductive HIRInstruction where
  | Integer (n : Int)
  | Float (f : FloatRepr)
  | String (s : String)
  | Bool (b : Bool)
  | FnParam (name : String)
  | Halt
  | Other (tag : String)
  deriving DecidableEq, Repr

/-- Modelled from the spec: one IR instruction — opcode, type signature and
source position (struct `HIR` of the `ir` crate). -/
structure HIR where
  pos : BiPos
  sig : TypeSignature
  ins : HIRInstruction
  deriving DecidableEq, Repr

/-- Modelled from the spec: notice severities (at least Error and the
terminal Halt marker). -/
inductive NoticeLevel where
  | Error
  | Halt
  | Warning
  deriving DecidableEq, Repr

/-- Modelled from the spec: a diagnostic record.  The Rust field `from`
(origin label) is renamed `origin` because `from` is a Lean keyword. -/
structure Notice where
  origin : String
  msg : String
  file : String
  level : NoticeLevel
  pos : BiPos
  deriving DecidableEq, Repr

/-- Rendering of a `TypeSignature` by Rust's derived `Debug` formatting,
as interpolated into the type checker's error messages. -/
def sigDebug : TypeSignature → String
  | .Untyped => "Untyped"
  | .Primitive .Integer => "Primitive(Integer)"
  | .Primitive .Float => "Primitive(Float)"
  | .Primitive .String => "Primitive(String)"
  | .Primitive .Bool => "Primitive(Bool)"
  | .Primitive .Unit => "Primitive(Unit)"
  | .Composite tag => "Composite(" ++ tag ++ ")"

/-- Embedding of `TypeckVM::emit_notice` (src/typeck/src/lib.rs lines
27-54): the list of notices a single call sends on the notice channel.
When the level is `Error` a generic "came back with an error" notice is
sent first, followed by the specific notice; otherwise only the specific
notice is sent. -/
def emit_notice (module_name msg : String) (level : NoticeLevel) (pos : BiPos) :
    List Notice :=
  if level = NoticeLevel.Error then
    [⟨"Type checker came back with an error.", msg, module_name, level, pos⟩,
     ⟨"Type checker", msg, module_name, level, pos⟩]
  else
    [⟨"Type checker", msg, module_name, level, pos⟩]

/-- Inference of a concrete signature from a lookahead opcode, as performed
inline by the `TypeSignature::Untyped` arm of `TypeckVM::check`
(src/typeck/src/lib.rs lines 165-201).  Note the Float arm: a Float literal
lookahead yields `Primitive(String)` — the observed behavior of line 176,
flagged by the spec (§9) as a likely copy-paste defect but preserved. -/
def inferSig : HIRInstruction → TypeSignature
  | .Integer _ => .Primitive .Integer
  | .Float _ => .Primitive .String
  | .String _ => .Primitive .String
  | .Bool _ => .Primitive .Bool
  | _ => .Primitive .Unit

/-- Outcome of one invocation of `TypeckVM::check`: whether it returned
`Ok`, the final operand stack `ir_stack`, the notices sent on the notice
channel, and the instructions sent on the typed-IR channel during the loop
(only a `Halt` is ever sent there by `check` itself). -/
structure CheckRes where
  ok : Bool
  stack : List HIR
  notices : List Notice
  sent : List HIR
  deriving DecidableEq, Repr

/-- Test applied by the first arm of the match on `ins` in the
`TypeSignature::Primitive` branch (src/typeck/src/lib.rs line 77): is the
instruction a function-parameter declaration? -/
def isFnParam : HIRInstruction → Bool
  | .FnParam _ => true
  | _ => false

/-- The verification applied by the nested `match p { ... match ins }` of
the `TypeSignature::Primitive` branch (src/typeck/src/lib.rs lines
84-155): `Integer` requires an `Integer(_)` opcode, `Float` a `Float(_)`
opcode, `String` a `String(_)` opcode; every other combination (including
any `p` such as `Bool` or `Unit` reaching this branch) takes the error
arm.  Note the scrutinee: the Rust code matches `ins`, the opcode of the
instruction that carried the signature, not `next_ir.ins`. -/
def primCheck : PrimitiveType → HIRInstruction → Bool
  | .Integer, .Integer _ => true
  | .Float, .Float _ => true
  | .String, .String _ => true
  | _, _ => false

/-- The error message built when `primCheck` fails, per arm of the Rust
`match p` (src/typeck/src/lib.rs lines 94, 114, 134, 146); the interpolated
signature is `next_ir.sig`, the signature of the lookahead instruction. -/
def primErrMsg : PrimitiveType → TypeSignature → String
  | .Integer, s => "Expected an expression of type Integer but instead got " ++ sigDebug s
  | .Float, s => "Expected an expression of type Float but instead got " ++ sigDebug s
  | .String, s => "Expected an expression of type String but instead got " ++ sigDebug s
  | _, s => "Unexpected type: " ++ sigDebug s

/-- Embedding of `TypeckVM::check` (src/typeck/src/lib.rs lines 60-209).
The first list argument is the inbound IR channel (end of list = channel
closed), the second is the current operand stack `ir_stack`.  The nested
Rust matches of the `Primitive` branch are factored through `isFnParam`,
`primCheck` and `primErrMsg` above.

Faithful details: a `Halt` opcode is sent to the typed-IR channel
immediately and the loop breaks, after which the "Halting" notice is
emitted (line 207) — that notice is therefore reached only via the break;
the channel-exhaustion arms (`recv` failing at lines 62, 79, 160)
`return Ok(())` directly and emit nothing.  In the `Primitive(p)` arm for
a non-`FnParam` instruction, the code pulls `next_ir` but then matches
`ins` — the opcode of the *original* instruction — against `p` (lines 86,
106, 126), while the error messages interpolate `next_ir.sig`. -/
def check (module_name : String) : List HIR → List HIR → CheckRes
  | [], stack => ⟨true, stack, [], []⟩
  | ⟨pos, sig, ins⟩ :: rest, stack =>
    if ins = HIRInstruction.Halt then
      ⟨true, stack, emit_notice module_name "Halting" NoticeLevel.Halt default,
        [⟨pos, sig, ins⟩]⟩
    else
      match sig with
      | .Primitive p =>
        if isFnParam ins then
          check module_name rest (stack ++ [⟨pos, sig, ins⟩])
        else
          match rest with
          | [] => ⟨true, stack, [], []⟩
          | next_ir :: rest2 =>
            if primCheck p ins then
              check module_name rest2 (stack ++ [⟨pos, sig, ins⟩])
            else
              ⟨false, stack,
                emit_notice module_name (primErrMsg p next_ir.sig)
                  NoticeLevel.Error pos, []⟩
      | .Untyped =>
        match rest with
        | [] => ⟨true, stack, [], []⟩
        | next_ir :: rest2 =>
          check module_name rest2
            (stack ++ [⟨pos, inferSig next_ir.ins, ins⟩, next_ir])
      | .Composite _ => check module_name rest (stack ++ [⟨pos, sig, ins⟩])

/-- Outcome of `TypeckVM::start_checking`: the returned `Result<(), ()>`,
the notices sent, and the full sequence of instructions sent on the
outbound typed-IR channel. -/
structure RunRes where
  result : Except Unit Unit
  notices : List Notice
  forwarded : List HIR
  deriving Repr

/-- Embedding of `TypeckVM::start_checking` (src/typeck/src/lib.rs lines
211-230): runs `check` on a fresh automaton (empty operand stack); if
`check` returned `Err` it returns `Ok(())` without flushing; otherwise it
flushes the operand stack to the typed-IR channel, after whatever `check`
already sent there, and returns `Ok(())`. -/
def start_checking (module_name : String) (input : List HIR) : RunRes :=
  let r := check module_name input []
  if r.ok = false then
    ⟨Except.ok (), r.notices, r.sent⟩
  else
    ⟨Except.ok (), r.notices, r.sent ++ r.stack⟩


/-! ## Scanner data model

The `tokens` module (`src/frontend/src/lexer/tokens.rs`) is not under
`src/`; the token types below are modelled from the spec (§3, §6), keeping
the names used by `src/frontend/src/lexer/mod.rs`.  Source text is
modelled as a list of characters, and slicing indices count characters;
the byte-versus-character distinction of Rust `&str` indexing is not
modelled (it is observable only on non-ASCII input, which no claim
concerns). -/

/-- Modelled from the spec: the fixed, closed token kind set (spec §6). -/
inductive TokenType where
  | Eof
  | Err
  | Identifier
  | KwLet
  | KwVal
  | KwVar
  | KwMut
  | KwNative
  | KwFun
  | Number
  | String
  | Equal
  | LParen
  | RParen
  | LBracket
  | RBracket
  | LCurly
  | RCurly
  | Pipe
  | Slash
  | QMark
  | Backslash
  | Semicolon
  | Colon
  | Apost
  | Quote
  | RAngle
  | LAngle
  | Dot
  | Comma
  | Minus
  | Plus
  | Underscore
  | Star
  | Percent
  | Dollar
  | Hash
  | At
  | Bang
  | And
  | Caret
  | Tick
  deriving DecidableEq, Repr

/-- Modelled from the spec: a token payload — none, a borrowed slice of the
source (`Str`), an owned diagnostic string (`String`), an integer value, or
a floating-point value.  Borrowed slices are character lists (slices of the
character-list source); owned strings are Lean strings. -/
inductive TokenData where
  | none
  | Str (s : List Char)
  | String (s : String)
  | Integer (i : Int)
  | Float (f : FloatRepr)
  deriving DecidableEq, Repr

/-- Modelled from the spec: one scanned token (kind, payload, span). -/
structure LexerToken where
  type_ : TokenType
  data : TokenData
  pos : BiPos
  deriving DecidableEq, Repr

/-- Result of a scanner operation that can abort the whole process: either
a value, or a Rust `panic!`/`unwrap`-on-`None` abort carrying the panic
message. -/
inductive Panicky (α : Type) where
  | ok (val : α)
  | panicked (msg : String)
  deriving DecidableEq, Repr

/-- Whether a `Panicky` result is the panic outcome. -/
def Panicky.isPanicked : Panicky α → Bool
  | .ok _ => false
  | .panicked _ => true

/-- State of `Lexer` (src/frontend/src/lexer/mod.rs lines 22-29): the full
input text, the remaining text (`source`, an `Option` that the code never
sets to `None` but matches on), the consumed-character count `char_idx`,
and the current position.  The token channel handle is not part of the
state model; sent tokens are returned by the driving loop. -/
structure LexerState where
  input : List Char
  source : Option (List Char)
  char_idx : Nat
  current_pos : BiPos
  deriving DecidableEq, Repr

/-- Embedding of `Lexer::new` (src/frontend/src/lexer/mod.rs lines 32-44):
fresh state over an input text. -/
def Lexer.new (input : List Char) : LexerState :=
  ⟨input, some input, 0, default⟩

/-- Embedding of `Lexer::advance_end` (src/frontend/src/lexer/mod.rs lines
46-69): consume one character of the remaining text, unconditionally
incrementing `char_idx` (the Rust code increments before inspecting the
character, so a call at exhausted input still bumps the counter), and
advancing the end column of the position if a character was present. -/
def advance_end (st : LexerState) : Option Char × LexerState :=
  match st.source with
  | none => (Option.none, st)
  | some [] => (Option.none, { st with char_idx := st.char_idx + 1, source := some [] })
  | some (c :: rest) =>
      (some c, { st with
                 char_idx := st.char_idx + 1
                 source := some rest
                 current_pos := st.current_pos.next_col_end })

/-- Embedding of `Lexer::peek` (src/frontend/src/lexer/mod.rs lines 71-76). -/
def Lexer.peek (st : LexerState) : Option Char :=
  match st.source with
  | none => Option.none
  | some src => src.head?

/-- Embedding of `Lexer::advance` (src/frontend/src/lexer/mod.rs lines
78-101): identical to `advance_end` except that it advances the start
column of the position. -/
def advance (st : LexerState) : Option Char × LexerState :=
  match st.source with
  | none => (Option.none, st)
  | some [] => (Option.none, { st with char_idx := st.char_idx + 1, source := some [] })
  | some (c :: rest) =>
      (some c, { st with
                 char_idx := st.char_idx + 1
                 source := some rest
                 current_pos := st.current_pos.next_col })

/-- Embedding of `Lexer::is_delimiter` (src/frontend/src/lexer/mod.rs lines
103-138): the fixed single-character delimiter/operator table. -/
def is_delimiter (c : Char) : Option TokenType :=
  if c = '=' then some TokenType.Equal
  else if c = '(' then some TokenType.LParen
  else if c = ')' then some TokenType.RParen
  else if c = ']' then some TokenType.RBracket
  else if c = '[' then some TokenType.LBracket
  else if c = '{' then some TokenType.LCurly
  else if c = '}' then some TokenType.RCurly
  else if c = '|' then some TokenType.Pipe
  else if c = '/' then some TokenType.Slash
  else if c = '?' then some TokenType.QMark
  else if c = '\\' then some TokenType.Backslash
  else if c = ';' then some TokenType.Semicolon
  else if c = ':' then some TokenType.Colon
  else if c = '\'' then some TokenType.Apost
  else if c = '\"' then some TokenType.Quote
  else if c = '>' then some TokenType.RAngle
  else if c = '<' then some TokenType.LAngle
  else if c = '.' then some TokenType.Dot
  else if c = ',' then some TokenType.Comma
  else if c = '-' then some TokenType.Minus
  else if c = '+' then some TokenType.Plus
  else if c = '_' then some TokenType.Underscore
  else if c = '*' then some TokenType.Star
  else if c = '%' then some TokenType.Percent
  else if c = '$' then some TokenType.Dollar
  else if c = '#' then some TokenType.Hash
  else if c = '@' then some TokenType.At
  else if c = '!' then some TokenType.Bang
  else if c = '&' then some TokenType.And
  else if c = '^' then some TokenType.Caret
  else if c = '`' then some TokenType.Tick
  else Option.none

/-- Embedding of `Lexer::is_keyword` (src/frontend/src/lexer/mod.rs lines
140-145) together with the `IDENT_MAP` keyword table (lines 9-20): reserved
identifier text maps to its keyword kind, everything else to `Identifier`. -/
def is_keyword (identifier : List Char) : TokenType :=
  if identifier = "let".toList then TokenType.KwLet
  else if identifier = "val".toList then TokenType.KwVal
  else if identifier = "var".toList then TokenType.KwVar
  else if identifier = "mut".toList then TokenType.KwMut
  else if identifier = "native".toList then TokenType.KwNative
  else if identifier = "fun".toList then TokenType.KwFun
  else TokenType.Identifier

/-- Rust `str::get(a..b)` on the character-list model: the slice of the
source from index `a` (inclusive) to `b` (exclusive), or `None` when the
range is invalid (`a > b` or `b` past the end). -/
def strGet (l : List Char) (a b : Nat) : Option (List Char) :=
  if a ≤ b ∧ b ≤ l.length then some ((l.drop a).take (b - a)) else Option.none

/-- Rust `str::trim` on the character-list model: leading and trailing
whitespace removed. -/
def trimChars (l : List Char) : List Char :=
  ((l.dropWhile Char.isWhitespace).reverse.dropWhile Char.isWhitespace).reverse

/-- Character-list value of a digit string, most significant digit first. -/
def digitsVal (s : List Char) : Int :=
  s.foldl (fun a c => a * 10 + ((c.toNat : Int) - ('0'.toNat : Int))) 0

/-- Modelled from the spec: Rust `str::parse::<isize>` on a 64-bit target,
restricted to the shapes reachable from `Lexer::number` (the parsed slice
starts with a decimal digit and continues with digits and dots, so sign
handling never triggers).  An all-digit string parses to its value unless
it exceeds `isize::MAX`; any other character makes parsing fail.  Error
strings are the Rust `ParseIntError` display texts. -/
def parseIsize (s : List Char) : Except String Int :=
  if s = [] then Except.error "cannot parse integer from empty string"
  else if ¬ s.all Char.isDigit then Except.error "invalid digit found in string"
  else if digitsVal s ≤ 9223372036854775807 then Except.ok (digitsVal s)
  else Except.error "number too large to fit in target type"

/-- Modelled from the spec: Rust `str::parse::<f64>`, restricted to the
shapes reachable from `Lexer::number` (digits and dots; exponent and
inf/nan forms never arise there).  A string of digits with at most one
dot parses, carrying the digits before and after the dot; a second dot
(or any other character) makes parsing fail. -/
def parseF64 (s : List Char) : Except String FloatRepr :=
  if s = [] then Except.error "cannot parse float from empty string"
  else if s.all Char.isDigit then Except.ok ⟨s, []⟩
  else
    match (s.dropWhile Char.isDigit) with
    | '.' :: fp =>
        if fp.all Char.isDigit then Except.ok ⟨s.takeWhile Char.isDigit, fp⟩
        else Except.error "invalid float literal"
    | _ => Except.error "invalid float literal"

/-- The scanning loop of `Lexer::number` (src/frontend/src/lexer/mod.rs
lines 150-159) on the remaining text: consume decimal digits and dots
(each dot sets the float flag), stopping at the first other character.
Returns the remaining text, the updated `char_idx` and position, and the
float flag. -/
def scanNumAux : List Char → Nat → BiPos → Bool → List Char × Nat × BiPos × Bool
  | [], idx, pos, is_float => ([], idx, pos, is_float)
  | c :: rest, idx, pos, is_float =>
    if c = '.' then scanNumAux rest (idx + 1) pos.next_col_end true
    else if c.isDigit then scanNumAux rest (idx + 1) pos.next_col_end is_float
    else (c :: rest, idx, pos, is_float)

/-- Embedding of `Lexer::number` (src/frontend/src/lexer/mod.rs lines
147-206), entered after `get_token` consumed the leading digit: scan the
digit/dot run, slice the input from `start_idx - 1` (to re-include the
consumed leading digit) to the new `char_idx`, trim it, then parse it as
`f64` if a dot was seen and as `isize` otherwise; parse failure yields an
`Err` token carrying the failure message. -/
def number (st : LexerState) : Option LexerToken × LexerState :=
  let start_idx := st.char_idx
  let scanned :=
    match st.source with
    | none => (Option.none, st.char_idx, st.current_pos, false)
    | some src =>
        let r := scanNumAux src st.char_idx st.current_pos false
        (some r.1, r.2.1, r.2.2.1, r.2.2.2)
  let st' : LexerState :=
    { st with
      source := scanned.1
      char_idx := scanned.2.1
      current_pos := scanned.2.2.1 }
  let is_float := scanned.2.2.2
  match strGet st.input (start_idx - 1) st'.char_idx with
  | Option.none =>
      (some ⟨TokenType.Err, TokenData.String "Failed to index into source",
        st'.current_pos⟩, st')
  | some slice =>
      let num := trimChars slice
      if is_float then
        match parseF64 num with
        | Except.ok f =>
            (some ⟨TokenType.Number, TokenData.Float f, st'.current_pos⟩, st')
        | Except.error e =>
            (some ⟨TokenType.Err,
              TokenData.String ("Failed to parse float from source: " ++ e),
              st'.current_pos⟩, st')
      else
        match parseIsize num with
        | Except.ok v =>
            (some ⟨TokenType.Number, TokenData.Integer v, st'.current_pos⟩, st')
        | Except.error e =>
            (some ⟨TokenType.Err,
              TokenData.String ("Failed to parse integer from source: " ++ e),
              st'.current_pos⟩, st')

/-- The scanning loop of `Lexer::string` (src/frontend/src/lexer/mod.rs
lines 212-218): `while let Some(c) = advance_end` until a double quote is
consumed.  The final failed `advance_end` at exhausted input still bumps
`char_idx` (its unconditional increment), which the slice below then
compensates with `- 1`. -/
def scanStrAux : List Char → Nat → BiPos → List Char × Nat × BiPos
  | [], idx, pos => ([], idx + 1, pos)
  | c :: rest, idx, pos =>
    if c = '\"' then (rest, idx + 1, pos.next_col_end)
    else scanStrAux rest (idx + 1) pos.next_col_end

/-- Embedding of `Lexer::string` (src/frontend/src/lexer/mod.rs lines
208-236), entered after `get_token` consumed the opening quote: the code
first calls `self.advance().unwrap()` — consuming one further character
unconditionally, and panicking if none remains — then consumes until a
double quote is consumed or input is exhausted, and slices the input from
`start_idx` to `char_idx - 1`. -/
def stringTok (st : LexerState) : Panicky (Option LexerToken × LexerState) :=
  let start_idx := st.char_idx
  match advance st with
  | (Option.none, _) => .panicked "called Option::unwrap() on a None value"
  | (some _, st1) =>
    let scanned :=
      match st1.source with
      | none => (Option.none, st1.char_idx, st1.current_pos)
      | some src =>
          let r := scanStrAux src st1.char_idx st1.current_pos
          (some r.1, r.2.1, r.2.2)
    let st2 : LexerState :=
      { st1 with
        source := scanned.1
        char_idx := scanned.2.1
        current_pos := scanned.2.2 }
    match strGet st2.input start_idx (st2.char_idx - 1) with
    | Option.none =>
        .ok (some ⟨TokenType.Err,
          TokenData.Str "Failed to extract string from input source.".toList,
          st2.current_pos⟩, st2)
    | some slice =>
        .ok (some ⟨TokenType.String, TokenData.Str slice, st2.current_pos⟩, st2)

/-- The whitespace-skipping loop of `Lexer::skip_whitespace`
(src/frontend/src/lexer/mod.rs lines 239-248): while the next character is
whitespace, advance (applying `next_line` first on a newline; `advance`
itself applies `next_col`). -/
def skipWsAux : List Char → Nat → BiPos → List Char × Nat × BiPos
  | [], idx, pos => ([], idx, pos)
  | c :: rest, idx, pos =>
    if c = '\n' then skipWsAux rest (idx + 1) pos.next_line.next_col
    else if c.isWhitespace then skipWsAux rest (idx + 1) pos.next_col
    else (c :: rest, idx, pos)

/-- Embedding of `Lexer::skip_whitespace` (src/frontend/src/lexer/mod.rs
lines 238-250): skip whitespace, then collapse the span (start := end). -/
def skip_whitespace (st : LexerState) : LexerState :=
  match st.source with
  | none => { st with current_pos := st.current_pos.collapse }
  | some src =>
      let r := skipWsAux src st.char_idx st.current_pos
      { st with
        source := some r.1
        char_idx := r.2.1
        current_pos := r.2.2.collapse }

/-- The identifier-scanning loop of `Lexer::get_token`
(src/frontend/src/lexer/mod.rs lines 259-268): extend while the next
character is neither a delimiter nor whitespace; on exhaustion the end
index is the full input length.  Returns remaining text, `char_idx`,
position, and the end index chosen by the `break`. -/
def identLoop : List Char → Nat → BiPos → Nat → List Char × Nat × BiPos × Nat
  | [], idx, pos, inputLen => ([], idx, pos, inputLen)
  | c :: rest, idx, pos, inputLen =>
    if (is_delimiter c).isSome ∨ c.isWhitespace then (c :: rest, idx, pos, idx)
    else identLoop rest (idx + 1) pos.next_col_end inputLen

/-- A minimal rendering of a position for the Rust `format!("{:?}", pos)`
interpolations; its exact text matters to no claim. -/
def posDebug (p : BiPos) : String :=
  "BiPos " ++ toString p.startLine ++ ":" ++ toString p.startCol ++ " "
    ++ toString p.endLine ++ ":" ++ toString p.endCol

/-- Embedding of `Lexer::get_token` (src/frontend/src/lexer/mod.rs lines
252-315): skip whitespace; consume one character; on `None` produce the
`Eof` token; otherwise dispatch — alphabetic starts an identifier, a
double quote a string literal, a digit a number, a delimiter its fixed
token, anything else the "Invalid character" error token.  The identifier
slice uses Rust panicking indexing (`&self.input[start-1..end]`), modelled
by the `panicked` arm; `string()` can panic through its `unwrap`. -/
def get_token (st0 : LexerState) : Panicky (Option LexerToken × LexerState) :=
  let st := skip_whitespace st0
  match advance st with
  | (Option.none, st1) =>
      .ok (some ⟨TokenType.Eof, TokenData.none, st1.current_pos⟩, st1)
  | (some c, st1) =>
    if c.isAlpha then
      let start := st1.char_idx
      let scanned :=
        match st1.source with
        | none => (Option.none, st1.char_idx, st1.current_pos, st1.input.length)
        | some src =>
            let r := identLoop src st1.char_idx st1.current_pos st1.input.length
            (some r.1, r.2.1, r.2.2.1, r.2.2.2)
      let st2 : LexerState :=
        { st1 with
          source := scanned.1
          char_idx := scanned.2.1
          current_pos := scanned.2.2.1 }
      match strGet st2.input (start - 1) scanned.2.2.2 with
      | Option.none => .panicked "byte index out of bounds"
      | some identifier =>
          .ok (some ⟨is_keyword identifier, TokenData.Str identifier,
            st2.current_pos⟩, st2)
    else if c = '\"' then
      match stringTok st1 with
      | .panicked msg => .panicked msg
      | .ok (some t, st2) => .ok (some t, st2)
      | .ok (Option.none, st2) =>
          .ok (some ⟨TokenType.Err,
            TokenData.String ("Unable to get string from input @ "
              ++ posDebug st2.current_pos),
            st2.current_pos⟩, st2)
    else if c.isDigit then
      let r := number st1
      .ok (r.1, r.2)
    else
      match is_delimiter c with
      | some tt =>
          .ok (some ⟨tt, TokenData.String (toString c), st1.current_pos⟩, st1)
      | Option.none =>
          .ok (some ⟨TokenType.Err, TokenData.Str "Invalid character".toList,
            st1.current_pos⟩, st1)

/-- A minimal rendering of a token for the Rust `format!("{:?}", t)`
interpolation in the driving loop's error return; its exact text matters
to no claim. -/
def tokenDebug (t : LexerToken) : String :=
  "LexerToken " ++ posDebug t.pos

/-- The driving loop of `Lexer::start_tokenizing`
(src/frontend/src/lexer/mod.rs lines 322-348), with explicit fuel (the
Rust loop terminates because every iteration either consumes input or
breaks; fuel larger than the input length makes the model agree with it).
Accumulates the tokens sent on the channel; `Eof` breaks with success,
`Err` returns the error string, anything else continues. -/
def tokenizeLoop : Nat → LexerState → List LexerToken →
    Panicky (Except String Unit × List LexerToken)
  | 0, _, acc => .ok (Except.ok (), acc)
  | fuel + 1, st, acc =>
    match get_token st with
    | .panicked msg => .panicked msg
    | .ok (some t, st') =>
        let acc' := acc ++ [t]
        match t.type_ with
        | TokenType.Eof => .ok (Except.ok (), acc')
        | TokenType.Err =>
            .ok (Except.error ("En error occurred while tokenizing input: "
              ++ tokenDebug t), acc')
        | _ => tokenizeLoop fuel st' acc'
    | .ok (Option.none, st') => tokenizeLoop fuel (advance st').2 acc

/-- Embedding of `Lexer::start_tokenizing` (src/frontend/src/lexer/mod.rs
lines 317-350) on a fresh scanner over `input`. -/
def start_tokenizing (input : List Char) :
    Panicky (Except String Unit × List LexerToken) :=
  tokenizeLoop (input.length + 1) (Lexer.new input) []

/-! ## Concrete example inputs used by individual claims -/

/-- The spec's well-typed example stream for the `Primitive` branch:
`[Primitive(Integer)-declaration, Integer-literal(5), Halt]`.  The
declaration carries a (non-literal) declaration opcode, opaque to this
stage, tagged with the declared signature `Primitive(Integer)`. -/
def exStreamC1 : List HIR :=
  [⟨default, TypeSignature.Primitive PrimitiveType.Integer, HIRInstruction.Other "declaration"⟩,
   ⟨default, TypeSignature.Primitive PrimitiveType.Integer, HIRInstruction.Integer 5⟩,
   ⟨default, TypeSignature.Untyped, HIRInstruction.Halt⟩]

/-- A well-typed stream with one pass-through instruction before `Halt`:
used to observe the order of the outbound typed-IR channel. -/
def exStreamC2 : List HIR :=
  [⟨default, TypeSignature.Composite "T", HIRInstruction.Other "x"⟩,
   ⟨default, TypeSignature.Untyped, HIRInstruction.Halt⟩]

/-- A stream consisting of the `Halt` sentinel alone. -/
def exStreamC3 : List HIR :=
  [⟨default, TypeSignature.Untyped, HIRInstruction.Halt⟩]

/-- The spec's mismatch example stream:
`[Primitive(Integer)-declaration, String-literal("x"), Halt]`. -/
def exStreamC5 : List HIR :=
  [⟨default, TypeSignature.Primitive PrimitiveType.Integer, HIRInstruction.Other "declaration"⟩,
   ⟨default, TypeSignature.Primitive PrimitiveType.String, HIRInstruction.String "x"⟩,
   ⟨default, TypeSignature.Untyped, HIRInstruction.Halt⟩]

/-- A stream containing a type mismatch between a declared signature and
its value expression: an `Integer`-tagged Integer literal whose lookahead
value expression is a String literal, then `Halt`. -/
def exStreamC5Mismatch : List HIR :=
  [⟨default, TypeSignature.Primitive PrimitiveType.Integer, HIRInstruction.Integer 7⟩,
   ⟨default, TypeSignature.Primitive PrimitiveType.String, HIRInstruction.String "x"⟩,
   ⟨default, TypeSignature.Untyped, HIRInstruction.Halt⟩]

/-! ## Result-shape lemma for `check`

Every run of `check` ends in one of three ways, mirroring the three exits
of the Rust loop: a silent `Ok` exit (channel exhaustion: nothing sent, no
notice), the `Halt` exit (the halt instruction sent, the single "Halting"
notice with default position), or the `Err` exit (nothing sent, the double
Error notice). -/

theorem check_shape (m : String) (input stack : List HIR) :
    ((check m input stack).ok = true ∧ (check m input stack).sent = []
        ∧ (check m input stack).notices = [])
  ∨ ((check m input stack).ok = true
        ∧ (∃ h, h.ins = HIRInstruction.Halt ∧ (check m input stack).sent = [h])
        ∧ (check m input stack).notices
            = [⟨"Type checker", "Halting", m, NoticeLevel.Halt, default⟩])
  ∨ ((check m input stack).ok = false ∧ (check m input stack).sent = []
        ∧ ∃ msg pos, (check m input stack).notices
            = [⟨"Type checker came back with an error.", msg, m, NoticeLevel.Error, pos⟩,
               ⟨"Type checker", msg, m, NoticeLevel.Error, pos⟩]) := by
  induction input, stack using check.induct m with
  | case1 stack =>
      left; exact ⟨rfl, rfl, rfl⟩
  | case2 pos sig rest stack =>
      right; left
      rw [check.eq_def]
      simp [emit_notice]
  | case3 pos ins rest stack hh p hfn ih =>
      rw [check.eq_def]
      simpa [hh, hfn] using ih
  | case4 pos ins stack hh p hfn =>
      left
      rw [check.eq_def]
      simp [hh, hfn]
  | case5 pos ins stack hh p hfn next_ir rest2 hpc ih =>
      rw [check.eq_def]
      simpa [hh, hfn, hpc] using ih
  | case6 pos ins stack hh p hfn next_ir rest2 hpc =>
      right; right
      refine ⟨?_, ?_, primErrMsg p next_ir.sig, pos, ?_⟩ <;>
        (rw [check.eq_def]; simp [hh, hfn, hpc, emit_notice])
  | case7 pos ins stack hh =>
      left
      rw [check.eq_def]
      simp [hh]
  | case8 pos ins stack hh next_ir rest2 ih =>
      rw [check.eq_def]
      simpa [hh] using ih
  | case9 pos ins rest stack hh tag ih =>
      rw [check.eq_def]
      simpa [hh] using ih

/-! ## Claim theorems for the Type-Checking Automaton -/

/-- C1: the claim states that in the `Primitive(P)` branch for a
non-parameter instruction the automaton verifies that the *next*
(lookahead) instruction's opcode matches P, so that the stream
`[Primitive(Integer)-declaration, Integer-literal(5), Halt]` passes with
no Error notice.  The code instead matches the opcode of the *original*
instruction (`match ins`, src/typeck/src/lib.rs line 86) — even though its
own error message reports `next_ir.sig` — so on that very stream it emits
the double Error notice and aborts, forwarding nothing.  This theorem
evaluates the embedded code at the failing input. -/
theorem C1_code_rejects_spec_example :
    (check "test" exStreamC1 []).ok = false
  ∧ (check "test" exStreamC1 []).notices
      = [⟨"Type checker came back with an error.",
          "Expected an expression of type Integer but instead got Primitive(Integer)",
          "test", NoticeLevel.Error, default⟩,
         ⟨"Type checker",
          "Expected an expression of type Integer but instead got Primitive(Integer)",
          "test", NoticeLevel.Error, default⟩]
  ∧ (start_checking "test" exStreamC1).forwarded = [] :=
  ⟨rfl, rfl, rfl⟩

/-- C2 counterexample: the claim states a successful run's outbound
typed-IR sequence is the verified instructions in encounter order with
`Halt` sent *last*.  On the stream `[Composite-tagged instruction, Halt]`
the run succeeds, but the channel carries the `Halt` instruction *first*
(it is forwarded immediately at src/typeck/src/lib.rs line 70, before
`start_checking` flushes the stack at lines 224-226), so the sequence is
not the claimed one. -/
theorem C2_counterexample :
    (start_checking "test" exStreamC2).forwarded
      = [⟨default, TypeSignature.Untyped, HIRInstruction.Halt⟩,
         ⟨default, TypeSignature.Composite "T", HIRInstruction.Other "x"⟩]
  ∧ (start_checking "test" exStreamC2).forwarded
      ≠ [⟨default, TypeSignature.Composite "T", HIRInstruction.Other "x"⟩,
         ⟨default, TypeSignature.Untyped, HIRInstruction.Halt⟩] :=
  ⟨rfl, by decide⟩

/-- C2 (amended): for every run whose core loop exits by receiving a
`Halt` instruction from the inbound channel — equivalently, every run in
which the loop itself sent anything on the typed-IR channel — the sequence
sent on that channel is that `Halt` instruction FIRST (it is forwarded
immediately on receipt, at src/typeck/src/lib.rs line 70, before
`start_checking` flushes the operand stack at lines 224-226), followed by
the verified/annotated instructions in original encounter order (the
operand stack contents).  A `Halt` that is instead consumed as a lookahead
by a preceding declaration does not take this path: it is pushed or
discarded like any lookahead. -/
theorem C2_amended_halt_sent_first (m : String) (input : List HIR)
    (h : (check m input []).sent ≠ []) :
    ∃ hir : HIR, hir.ins = HIRInstruction.Halt
      ∧ (check m input []).sent = [hir]
      ∧ (start_checking m input).forwarded
          = hir :: (check m input []).stack := by
  rcases check_shape m input [] with ⟨_, hs, _⟩ | ⟨hok, ⟨hir, hins, hs⟩, _⟩ | ⟨_, hs, _⟩
  · exact absurd hs h
  · refine ⟨hir, hins, hs, ?_⟩
    simp [start_checking, hok, hs]
  · exact absurd hs h

/-- C2 witness: the amended statement at the concrete stream
`[Composite-tagged instruction, Halt]`, whose loop exits on the `Halt`:
the forwarded sequence is the `Halt` followed by the stack. -/
theorem C2_amended_witness :
    ∃ hir : HIR, hir.ins = HIRInstruction.Halt
      ∧ (check "test" exStreamC2 []).sent = [hir]
      ∧ (start_checking "test" exStreamC2).forwarded
          = hir :: (check "test" exStreamC2 []).stack :=
  C2_amended_halt_sent_first "test" exStreamC2 (by decide)

/-- C3 counterexample: the claim states that *every* non-erroneous loop
exit — by `Halt` or by inbound exhaustion — emits a Halt-severity
"Halting" notice.  On the empty inbound stream the loop exits
non-erroneously by exhaustion (`recv` fails, `return Ok(())` at
src/typeck/src/lib.rs line 65, skipping line 207), and no notice at all is
emitted. -/
theorem C3_counterexample :
    (check "test" [] []).ok = true ∧ (check "test" [] []).notices = [] :=
  ⟨rfl, rfl⟩

/-- C3 (amended): a Halt-severity "Halting" notice with default position is
emitted exactly on the runs whose core loop exits because a `Halt`
instruction arrived (equivalently, whose loop sent anything on the
typed-IR channel); exhaustion exits emit no notice. -/
theorem C3_amended_halting_notice_on_halt_exit (m : String) (input : List HIR)
    (h : (check m input []).sent ≠ []) :
    ∃ n ∈ (check m input []).notices,
      n.level = NoticeLevel.Halt ∧ n.msg = "Halting" ∧ n.pos = default := by
  rcases check_shape m input [] with ⟨_, hs, _⟩ | ⟨_, ⟨hir, hins, hs⟩, hn⟩ | ⟨_, hs, _⟩
  · exact absurd hs h
  · exact ⟨⟨"Type checker", "Halting", m, NoticeLevel.Halt, default⟩,
      by simp [hn], rfl, rfl, rfl⟩
  · exact absurd hs h

/-- C3 witness: the amended statement at the stream `[Halt]`. -/
theorem C3_amended_witness :
    ∃ n ∈ (check "test" exStreamC3 []).notices,
      n.level = NoticeLevel.Halt ∧ n.msg = "Halting" ∧ n.pos = default :=
  C3_amended_halting_notice_on_halt_exit "test" exStreamC3 (by decide)

/-- C4: for an instruction whose declared signature is `Untyped` (and which
is not the `Halt` sentinel), the automaton pulls the lookahead instruction
and pushes the original instruction re-tagged with the signature inferred
from the lookahead's opcode, followed by the unchanged lookahead, both onto
the operand stack in that order; and the inference table is exactly:
Integer-literal → Primitive(Integer), Float-literal → Primitive(String)
(the preserved observed behavior), String-literal → Primitive(String),
Bool-literal → Primitive(Bool), anything else → Primitive(Unit). -/
theorem C4_untyped_inference (m : String) (pos : BiPos) (insn : HIRInstruction)
    (next_ir : HIR) (rest stack : List HIR)
    (hins : insn ≠ HIRInstruction.Halt) :
    (check m (⟨pos, TypeSignature.Untyped, insn⟩ :: next_ir :: rest) stack
      = check m rest (stack ++ [⟨pos, inferSig next_ir.ins, insn⟩, next_ir]))
  ∧ (∀ n : Int, inferSig (HIRInstruction.Integer n)
      = TypeSignature.Primitive PrimitiveType.Integer)
  ∧ (∀ f : FloatRepr, inferSig (HIRInstruction.Float f)
      = TypeSignature.Primitive PrimitiveType.String)
  ∧ (∀ s : String, inferSig (HIRInstruction.String s)
      = TypeSignature.Primitive PrimitiveType.String)
  ∧ (∀ b : Bool, inferSig (HIRInstruction.Bool b)
      = TypeSignature.Primitive PrimitiveType.Bool)
  ∧ (∀ name : String, inferSig (HIRInstruction.FnParam name)
      = TypeSignature.Primitive PrimitiveType.Unit)
  ∧ inferSig HIRInstruction.Halt = TypeSignature.Primitive PrimitiveType.Unit
  ∧ (∀ tag : String, inferSig (HIRInstruction.Other tag)
      = TypeSignature.Primitive PrimitiveType.Unit) := by
  refine ⟨?_, fun n => rfl, fun f => rfl, fun s => rfl, fun b => rfl,
    fun name => rfl, rfl, fun tag => rfl⟩
  rw [check.eq_def]
  simp [hins]

/-- C4 witness: the spec's inference example
`[Untyped-declaration, Integer-literal(5), Halt]` — the declaration is
re-tagged `Primitive(Integer)` and both instructions are pushed. -/
theorem C4_untyped_inference_witness :
    (check "test"
        [⟨default, TypeSignature.Untyped, HIRInstruction.Other "declaration"⟩,
         ⟨default, TypeSignature.Untyped, HIRInstruction.Integer 5⟩,
         ⟨default, TypeSignature.Untyped, HIRInstruction.Halt⟩] []
      = check "test" [⟨default, TypeSignature.Untyped, HIRInstruction.Halt⟩]
          ([] ++ [⟨default,
                    inferSig (HIRInstruction.Integer 5),
                    HIRInstruction.Other "declaration"⟩,
                  ⟨default, TypeSignature.Untyped, HIRInstruction.Integer 5⟩]))
  ∧ inferSig (HIRInstruction.Integer 5)
      = TypeSignature.Primitive PrimitiveType.Integer :=
  ⟨(C4_untyped_inference "test" default (HIRInstruction.Other "declaration")
      ⟨default, TypeSignature.Untyped, HIRInstruction.Integer 5⟩
      [⟨default, TypeSignature.Untyped, HIRInstruction.Halt⟩] [] (by decide)).1,
   (C4_untyped_inference "test" default (HIRInstruction.Other "declaration")
      ⟨default, TypeSignature.Untyped, HIRInstruction.Integer 5⟩
      [⟨default, TypeSignature.Untyped, HIRInstruction.Halt⟩] [] (by decide)).2.1 5⟩

/-- C5 counterexample: the claim states that *every* input stream with a
type mismatch — the verified value expression's instruction kind not
matching the declared primitive signature — makes the Automaton emit an
Error notice and abort with nothing forwarded.  Because the code matches
the *original* instruction's opcode instead of the lookahead's (the
scrutinee slip recorded under C1), the stream
`[Integer-tagged Integer-literal(7), String-literal("x"), Halt]` — whose
value expression is a String literal against a declared
`Primitive(Integer)` — passes: the run succeeds, no Error-severity notice
is emitted, and output *is* forwarded (`[Halt, Integer-literal(7)]`). -/
theorem C5_counterexample :
    (check "test" exStreamC5Mismatch []).ok = true
  ∧ (∀ n ∈ (check "test" exStreamC5Mismatch []).notices,
      n.level ≠ NoticeLevel.Error)
  ∧ (start_checking "test" exStreamC5Mismatch).forwarded
      = [⟨default, TypeSignature.Untyped, HIRInstruction.Halt⟩,
         ⟨default, TypeSignature.Primitive PrimitiveType.Integer,
          HIRInstruction.Integer 7⟩]
  ∧ (start_checking "test" exStreamC5Mismatch).forwarded ≠ [] :=
  ⟨rfl, by decide, rfl, by decide⟩

/-- C5 (amended): the mismatches the Automaton actually detects are those
where the instruction carrying `Primitive(P)` itself has an opcode not
matching P (or P has no matching rule, such as Bool or Unit) — not
lookahead mismatches — and every run of the check that aborts with such a
failure outcome has emitted an Error-severity notice, sent nothing on the
typed-IR channel during the loop, and `start_checking` forwards nothing
afterwards — no partial output. -/
theorem C5_mismatch_aborts_without_forwarding (m : String) (input : List HIR)
    (h : (check m input []).ok = false) :
    (∃ n ∈ (check m input []).notices, n.level = NoticeLevel.Error)
  ∧ (check m input []).sent = []
  ∧ (start_checking m input).forwarded = [] := by
  rcases check_shape m input [] with ⟨hok, _, _⟩ | ⟨hok, _, _⟩ | ⟨_, hs, msg, pos, hn⟩
  · rw [hok] at h; cases h
  · rw [hok] at h; cases h
  · refine ⟨⟨⟨"Type checker came back with an error.", msg, m,
        NoticeLevel.Error, pos⟩, by simp [hn], rfl⟩, hs, ?_⟩
    simp [start_checking, h, hs]

/-- C5 witness: the spec's mismatch example
`[Primitive(Integer)-declaration, String-literal("x"), Halt]` aborts with
an Error notice naming Integer (expected) and the lookahead's signature
Primitive(String) (found), and forwards nothing. -/
theorem C5_mismatch_witness :
    ((∃ n ∈ (check "test" exStreamC5 []).notices, n.level = NoticeLevel.Error)
      ∧ (check "test" exStreamC5 []).sent = []
      ∧ (start_checking "test" exStreamC5).forwarded = [])
  ∧ (check "test" exStreamC5 []).notices
      = [⟨"Type checker came back with an error.",
          "Expected an expression of type Integer but instead got Primitive(String)",
          "test", NoticeLevel.Error, default⟩,
         ⟨"Type checker",
          "Expected an expression of type Integer but instead got Primitive(String)",
          "test", NoticeLevel.Error, default⟩] :=
  ⟨C5_mismatch_aborts_without_forwarding "test" exStreamC5 rfl, rfl⟩

/-- C8: in the `Primitive(p)` branch for a non-parameter instruction that
passes verification (`primCheck p ins`), the lookahead instruction pulled
from the channel is consumed and discarded: the continuation state pushes
only the original instruction (with its declared signature), so the
lookahead contributes nothing to the operand stack or, downstream, to the
typed-IR channel. -/
theorem C8_lookahead_discarded (m : String) (pos : BiPos) (p : PrimitiveType)
    (insn : HIRInstruction) (next_ir : HIR) (rest stack : List HIR)
    (hmatch : primCheck p insn = true) :
    check m (⟨pos, TypeSignature.Primitive p, insn⟩ :: next_ir :: rest) stack
      = check m rest (stack ++ [⟨pos, TypeSignature.Primitive p, insn⟩]) := by
  have hh : insn ≠ HIRInstruction.Halt := by
    rintro rfl
    cases p <;> simp [primCheck] at hmatch
  have hfn : isFnParam insn = false := by
    cases insn <;> first
      | rfl
      | (cases p <;> simp [primCheck] at hmatch)
  rw [check.eq_def]
  simp [hh, hfn, hmatch]

/-- C8 witness: an Integer-tagged Integer literal followed by a lookahead
string literal — the step discards the lookahead and pushes only the
original instruction. -/
theorem C8_lookahead_discarded_witness :
    check "test"
        [⟨default, TypeSignature.Primitive PrimitiveType.Integer, HIRInstruction.Integer 5⟩,
         ⟨default, TypeSignature.Primitive PrimitiveType.String, HIRInstruction.String "x"⟩] []
      = check "test" []
          ([] ++ [⟨default, TypeSignature.Primitive PrimitiveType.Integer,
                   HIRInstruction.Integer 5⟩]) :=
  C8_lookahead_discarded "test" default PrimitiveType.Integer
    (HIRInstruction.Integer 5)
    ⟨default, TypeSignature.Primitive PrimitiveType.String, HIRInstruction.String "x"⟩
    [] [] rfl

/-- C9: `start_checking` returns `Ok(())` on every run that does not panic
— including runs whose check aborted with a type mismatch (the `Err` from
`check` is swallowed at src/typeck/src/lib.rs lines 220-222), so the
caller cannot distinguish failure from success by the return value. -/
theorem C9_start_checking_always_ok (m : String) (input : List HIR) :
    (start_checking m input).result = Except.ok () := by
  by_cases h : (check m input []).ok = false <;> simp [start_checking, h]

/-! ## Helper lemmas for the scanner -/

/-- A decimal digit is not whitespace. -/
theorem digit_not_whitespace (c : Char) (h : c.isDigit = true) :
    c.isWhitespace = false := by
  cases hw : c.isWhitespace
  · rfl
  · exfalso
    have hcases : ((c = ' ' ∨ c = '\t') ∨ c = '\x0d') ∨ c = '\n' := by
      simpa [Char.isWhitespace] using hw
    rcases hcases with ((h' | h') | h') | h' <;> subst h' <;> simp [Char.isDigit] at h

/-- The dot is not whitespace. -/
theorem dot_not_whitespace : ('.' : Char).isWhitespace = false := by decide

/-- `trim` leaves a string without whitespace characters unchanged. -/
theorem trimChars_eq_self (l : List Char)
    (h : ∀ c ∈ l, c.isWhitespace = false) : trimChars l = l := by
  unfold trimChars
  have h1 : l.dropWhile Char.isWhitespace = l := by
    cases l with
    | nil => rfl
    | cons c t =>
        have := h c (by simp)
        simp [List.dropWhile, this]
  rw [h1]
  have h2 : l.reverse.dropWhile Char.isWhitespace = l.reverse := by
    cases hr : l.reverse with
    | nil => rfl
    | cons c t =>
        have hc : c ∈ l := by
          rw [← List.mem_reverse, hr]; simp
        have := h c hc
        simp [List.dropWhile, this]
  rw [h2, List.reverse_reverse]

/-- Evaluation of the number-scanning loop: it consumes exactly the leading
run of digits and dots, adds its length to `char_idx`, and reports a float
iff that run contains a dot (given the flag starts as `b`). -/
theorem scanNumAux_spec (l : List Char) : ∀ (i : Nat) (p : BiPos) (b : Bool),
    ∃ p', scanNumAux l i p b
      = (l.dropWhile (fun c => c = '.' || c.isDigit),
         i + (l.takeWhile (fun c => c = '.' || c.isDigit)).length,
         p',
         b || (l.takeWhile (fun c => c = '.' || c.isDigit)).any (· == '.')) := by
  induction l with
  | nil => exact fun i p b => ⟨p, by simp [scanNumAux]⟩
  | cons c t ih =>
      intro i p b
      by_cases hc : c = '.'
      · obtain ⟨p', hp⟩ := ih (i + 1) p.next_col_end true
        refine ⟨p', ?_⟩
        subst hc
        simp only [scanNumAux, if_pos rfl, hp]
        simp [List.takeWhile_cons, List.dropWhile_cons, Prod.ext_iff]
        omega
      · by_cases hd : c.isDigit
        · obtain ⟨p', hp⟩ := ih (i + 1) p.next_col_end b
          refine ⟨p', ?_⟩
          simp only [scanNumAux, if_neg hc, if_pos hd, hp]
          simp [List.takeWhile_cons, List.dropWhile_cons, hc, hd, Prod.ext_iff]
          have hbeq : (c == '.') = false := by simpa using hc
          refine ⟨by omega, by simp [hbeq]⟩
        · refine ⟨p, ?_⟩
          simp [scanNumAux, hc, hd, List.takeWhile_cons, List.dropWhile_cons]

/-- Evaluation of the string-scanning loop on a remaining text consisting
of quote-free characters, a closing quote, and a remainder: it consumes
through the quote, adding the consumed count to `char_idx`. -/
theorem scanStrAux_spec (l : List Char) : ∀ (r : List Char) (i : Nat) (p : BiPos),
    '\"' ∉ l →
    ∃ p', scanStrAux (l ++ '\"' :: r) i p = (r, i + l.length + 1, p') := by
  induction l with
  | nil =>
      intro r i p _
      exact ⟨p.next_col_end, by simp [scanStrAux]⟩
  | cons c t ih =>
      intro r i p hq
      have hc : ¬ c = '\"' := fun h => hq (by simp [h])
      obtain ⟨p', hp⟩ := ih r (i + 1) p.next_col_end (fun h => hq (by simp [h]))
      refine ⟨p', ?_⟩
      have hlen : i + (c :: t).length + 1 = i + 1 + t.length + 1 := by
        simp; omega
      rw [hlen, List.cons_append]
      simp only [scanStrAux, if_neg hc]
      exact hp

/-! ## Claim theorems for the Scanner -/

/-- C7 counterexample: the claim states the String token's payload equals
the enclosed text for *all* well-formed literals "including the empty
one".  On the input `""x` — a well-formed empty literal followed by more
text — the scanner's `string()` first consumes one character
unconditionally (`self.advance().unwrap()`, src/frontend/src/lexer/mod.rs
line 211), swallowing the closing quote; the emitted String token's
payload is `"x`, which is not the enclosed text (empty) and contains a
quote character. -/
theorem C7_counterexample :
    get_token (Lexer.new ['\"', '\"', 'x'])
      = Panicky.ok (some ⟨TokenType.String, TokenData.Str ['\"', 'x'], ⟨0, 2, 0, 1⟩⟩,
          ⟨['\"', '\"', 'x'], some [], 4, ⟨0, 2, 0, 1⟩⟩)
  ∧ (['\"', 'x'] : List Char) ≠ []
  ∧ '\"' ∈ (['\"', 'x'] : List Char) :=
  ⟨rfl, by decide, by decide⟩

/-- C7 (amended): for every well-formed double-quoted literal whose
enclosed text is non-empty (and quote-free), the scanner invoked right
after consuming the opening quote emits a String token whose payload is
exactly the enclosed text, containing neither quote.  (The empty enclosed
text is excluded: `string()` unconditionally consumes one character before
looking for the closing quote, so an empty literal is mis-scanned.) -/
theorem C7_amended_string_payload (input content rest : List Char) (idx : Nat)
    (pos : BiPos)
    (hsrc : input.drop idx = content ++ '\"' :: rest)
    (hne : content ≠ [])
    (hq : '\"' ∉ content) :
    ∃ st' : LexerState,
      stringTok ⟨input, some (input.drop idx), idx, pos⟩
        = Panicky.ok (some ⟨TokenType.String, TokenData.Str content,
            st'.current_pos⟩, st') := by
  obtain ⟨c0, ctail, rfl⟩ : ∃ c0 ctail, content = c0 :: ctail := by
    cases content with
    | nil => exact absurd rfl hne
    | cons a b => exact ⟨a, b, rfl⟩
  have hc0 : input.drop idx = c0 :: (ctail ++ '\"' :: rest) := by simpa using hsrc
  have hqt : '\"' ∉ ctail := fun h => hq (List.mem_cons_of_mem _ h)
  obtain ⟨p', hscan⟩ := scanStrAux_spec ctail rest (idx + 1) pos.next_col hqt
  have hlenin : input.length = idx + ctail.length + rest.length + 2 := by
    have hlt : idx < input.length := by
      by_contra hcon
      push_neg at hcon
      rw [List.drop_eq_nil_of_le hcon] at hc0
      exact List.noConfusion hc0
    have hdl : (input.drop idx).length = input.length - idx := by simp
    rw [hc0] at hdl
    simp at hdl
    omega
  have hslice : strGet input idx (idx + 1 + ctail.length + 1 - 1)
      = some (c0 :: ctail) := by
    have harith : idx + 1 + ctail.length + 1 - 1 = idx + ctail.length + 1 := by omega
    rw [harith]
    unfold strGet
    rw [if_pos ⟨by omega, by omega⟩]
    congr 1
    rw [hc0]
    have harith2 : idx + ctail.length + 1 - idx = ctail.length + 1 := by omega
    rw [harith2, List.take_succ_cons, List.take_left]
  refine ⟨⟨input, some rest, idx + 1 + ctail.length + 1, p'⟩, ?_⟩
  rw [stringTok.eq_def, hc0]
  simp only [advance, hscan, hslice]

/-- C7 witness: the amended statement at the literal `"ab"`, entered after
the opening quote was consumed. -/
theorem C7_amended_witness :
    ∃ st' : LexerState,
      stringTok ⟨['\"', 'a', 'b', '\"'], some (['\"', 'a', 'b', '\"'].drop 1), 1, default⟩
        = Panicky.ok (some ⟨TokenType.String, TokenData.Str ['a', 'b'],
            st'.current_pos⟩, st') :=
  C7_amended_string_payload ['\"', 'a', 'b', '\"'] ['a', 'b'] [] 1 default
    rfl (by decide) (by decide)

/-- C6: correctness of number scanning, stated at the entry state of
`number` (reached from `get_token` right after a leading decimal digit
`c0` was consumed).  Writing `pfx` for the scanned digit/dot run and
`c0 :: pfx` for the exact source slice re-extracted by `number`:
with no dot in the slice, a successful `isize` parse yields a Number token
whose integer payload is the parsed value, and a failed parse yields an
error token carrying the parse failure message; with a dot, a successful
`f64` parse yields a Number token with a floating-point payload, and a
failed parse an error token with the failure message; and conversely every
Number token's numeric payload is the successful parse of that exact
slice. -/
theorem C6_number_token_parses (input : List Char) (idx : Nat) (pos : BiPos)
    (c0 : Char) (h1 : 1 ≤ idx) (hle : idx ≤ input.length)
    (hc0 : input.get? (idx - 1) = some c0) (hd : c0.isDigit = true) :
    (((input.drop idx).takeWhile (fun c => c = '.' || c.isDigit)).any (· == '.') = false →
        (∀ v : Int,
          parseIsize (c0 :: (input.drop idx).takeWhile (fun c => c = '.' || c.isDigit))
              = Except.ok v →
            (number ⟨input, some (input.drop idx), idx, pos⟩).1
              = some ⟨TokenType.Number, TokenData.Integer v,
                  (number ⟨input, some (input.drop idx), idx, pos⟩).2.current_pos⟩)
      ∧ (∀ e : String,
          parseIsize (c0 :: (input.drop idx).takeWhile (fun c => c = '.' || c.isDigit))
              = Except.error e →
            (number ⟨input, some (input.drop idx), idx, pos⟩).1
              = some ⟨TokenType.Err,
                  TokenData.String ("Failed to parse integer from source: " ++ e),
                  (number ⟨input, some (input.drop idx), idx, pos⟩).2.current_pos⟩))
  ∧ (((input.drop idx).takeWhile (fun c => c = '.' || c.isDigit)).any (· == '.') = true →
        (∀ f : FloatRepr,
          parseF64 (c0 :: (input.drop idx).takeWhile (fun c => c = '.' || c.isDigit))
              = Except.ok f →
            (number ⟨input, some (input.drop idx), idx, pos⟩).1
              = some ⟨TokenType.Number, TokenData.Float f,
                  (number ⟨input, some (input.drop idx), idx, pos⟩).2.current_pos⟩)
      ∧ (∀ e : String,
          parseF64 (c0 :: (input.drop idx).takeWhile (fun c => c = '.' || c.isDigit))
              = Except.error e →
            (number ⟨input, some (input.drop idx), idx, pos⟩).1
              = some ⟨TokenType.Err,
                  TokenData.String ("Failed to parse float from source: " ++ e),
                  (number ⟨input, some (input.drop idx), idx, pos⟩).2.current_pos⟩))
  ∧ (∀ (v : Int) (p' : BiPos),
      (number ⟨input, some (input.drop idx), idx, pos⟩).1
          = some ⟨TokenType.Number, TokenData.Integer v, p'⟩ →
        parseIsize (c0 :: (input.drop idx).takeWhile (fun c => c = '.' || c.isDigit))
          = Except.ok v)
  ∧ (∀ (f : FloatRepr) (p' : BiPos),
      (number ⟨input, some (input.drop idx), idx, pos⟩).1
          = some ⟨TokenType.Number, TokenData.Float f, p'⟩ →
        parseF64 (c0 :: (input.drop idx).takeWhile (fun c => c = '.' || c.isDigit))
          = Except.ok f) := by
  obtain ⟨pos', hscan⟩ := scanNumAux_spec (input.drop idx) idx pos false
  set pfx := (input.drop idx).takeWhile (fun c => c = '.' || c.isDigit) with hpfx
  have hplen : pfx.length ≤ input.length - idx := by
    have h := (List.takeWhile_prefix
      (p := fun c => c = '.' || c.isDigit) (l := input.drop idx)).length_le
    simpa [hpfx] using h
  have hdrop : input.drop (idx - 1) = c0 :: input.drop idx := by
    obtain ⟨hlt, hget⟩ := List.get?_eq_some.mp hc0
    rw [List.drop_eq_getElem_cons hlt]
    have harith : idx - 1 + 1 = idx := by omega
    rw [harith]
    congr 1
  have hslice : strGet input (idx - 1) (idx + pfx.length) = some (c0 :: pfx) := by
    unfold strGet
    rw [if_pos ⟨by omega, by omega⟩]
    congr 1
    rw [hdrop]
    have harith : idx + pfx.length - (idx - 1) = pfx.length + 1 := by omega
    rw [harith, List.take_succ_cons]
    congr 1
    conv_lhs => rw [← List.takeWhile_append_dropWhile
      (p := fun c => c = '.' || c.isDigit) (l := input.drop idx)]
    exact List.take_left _ _
  have hws : ∀ c ∈ c0 :: pfx, c.isWhitespace = false := by
    intro c hcmem
    rcases List.mem_cons.mp hcmem with rfl | hmem
    · exact digit_not_whitespace c hd
    · have hp := List.mem_takeWhile_imp hmem
      rcases (by simpa using hp : c = '.' ∨ c.isDigit = true) with h' | h'
      · subst h'; exact dot_not_whitespace
      · exact digit_not_whitespace c h'
  have htrim : trimChars (c0 :: pfx) = c0 :: pfx := trimChars_eq_self _ hws
  have hred : ∃ ST : LexerState, ST.current_pos = pos' ∧
      number ⟨input, some (input.drop idx), idx, pos⟩
        = (if pfx.any (· == '.') then
            match parseF64 (c0 :: pfx) with
            | Except.ok f =>
                (some ⟨TokenType.Number, TokenData.Float f, pos'⟩, ST)
            | Except.error e =>
                (some ⟨TokenType.Err,
                  TokenData.String ("Failed to parse float from source: " ++ e),
                  pos'⟩, ST)
          else
            match parseIsize (c0 :: pfx) with
            | Except.ok v =>
                (some ⟨TokenType.Number, TokenData.Integer v, pos'⟩, ST)
            | Except.error e =>
                (some ⟨TokenType.Err,
                  TokenData.String ("Failed to parse integer from source: " ++ e),
                  pos'⟩, ST)) := by
    refine ⟨⟨input, some ((input.drop idx).dropWhile (fun c => c = '.' || c.isDigit)),
      idx + pfx.length, pos'⟩, rfl, ?_⟩
    unfold number
    simp only [hscan, Bool.false_or, hslice, htrim]
  obtain ⟨ST, hSTpos, hred⟩ := hred
  rw [hred]
  refine ⟨?_, ?_, ?_, ?_⟩
  · intro hflag
    constructor
    · intro v hv
      simp [hflag, hv, hSTpos]
    · intro e he
      simp [hflag, he, hSTpos]
  · intro hflag
    constructor
    · intro f hf
      simp [hflag, hf, hSTpos]
    · intro e he
      simp [hflag, he, hSTpos]
  · intro v p' h
    by_cases hflag : pfx.any (· == '.')
    · rcases hp : parseF64 (c0 :: pfx) with f | e <;> simp [hflag, hp] at h
    · rcases hp : parseIsize (c0 :: pfx) with v' | e <;> simp [hflag, hp] at h
      · simp [hp, h]
  · intro f p' h
    by_cases hflag : pfx.any (· == '.')
    · rcases hp : parseF64 (c0 :: pfx) with f' | e <;> simp [hflag, hp] at h
      · simp [hp, h]
    · rcases hp : parseIsize (c0 :: pfx) with v' | e <;> simp [hflag, hp] at h

/-- C6 witness: scanning the digit sequence `12` (entered after the `1`
was consumed) emits a Number token with integer payload 12. -/
theorem C6_number_witness :
    (number ⟨['1', '2'], some (['1', '2'].drop 1), 1, default⟩).1
      = some ⟨TokenType.Number, TokenData.Integer 12,
          (number ⟨['1', '2'], some (['1', '2'].drop 1), 1, default⟩).2.current_pos⟩ :=
  ((C6_number_token_parses ['1', '2'] 1 default '1' (by decide) (by decide)
      rfl rfl).1 (by decide)).1 12 rfl

/-- `number` always returns a token (every branch of
src/frontend/src/lexer/mod.rs lines 147-206 returns `Some`). -/
theorem number_some (st : LexerState) : ∃ t st', number st = (some t, st') := by
  unfold number
  rcases st with ⟨input, src, idx, pos⟩
  dsimp only
  repeat' split
  all_goals exact ⟨_, _, rfl⟩

/-- `string()` either panics (its `unwrap`) or returns a token: no branch
returns `None` (src/frontend/src/lexer/mod.rs lines 208-236). -/
theorem stringTok_some (st : LexerState) :
    (∃ msg, stringTok st = Panicky.panicked msg)
  ∨ (∃ t st', stringTok st = Panicky.ok (some t, st')) := by
  unfold stringTok
  dsimp only
  repeat' split
  all_goals first
    | (left; exact ⟨_, rfl⟩)
    | (right; exact ⟨_, _, rfl⟩)

/-- The digit branch of `get_token` always carries a token: what it sends
is the pair returned by `number`, whose first component is always `Some`. -/
theorem number_branch_some (st1 : LexerState) :
    (∃ msg, Panicky.ok ((number st1).1, (number st1).2)
        = Panicky.panicked msg)
  ∨ (∃ t st', Panicky.ok ((number st1).1, (number st1).2)
        = Panicky.ok ((some t : Option LexerToken), st')) := by
  obtain ⟨tok, s2, hn⟩ := number_some st1
  right
  exact ⟨tok, s2, by rw [hn]⟩

/-- `get_token` either panics or returns a token: no branch of
src/frontend/src/lexer/mod.rs lines 252-315 returns `None`. -/
theorem get_token_shape (st : LexerState) :
    (∃ msg, get_token st = Panicky.panicked msg)
  ∨ (∃ t st', get_token st = Panicky.ok (some t, st')) := by
  unfold get_token
  dsimp only
  repeat' split
  all_goals first
    | (left; exact ⟨_, rfl⟩)
    | (right; exact ⟨_, _, rfl⟩)
    | exact number_branch_some _

/-- C10 counterexample: the claim states `get_token` is total — every call
returns some token.  On the input consisting of a single double quote, the
dispatch enters `string()`, whose unconditional `self.advance().unwrap()`
(src/frontend/src/lexer/mod.rs line 211) finds no remaining character and
panics: the call aborts instead of returning a token. -/
theorem C10_counterexample :
    get_token (Lexer.new ['\"'])
      = Panicky.panicked "called Option::unwrap() on a None value" := rfl

/-- C10 (amended): every `get_token` call that does not hit the string
scanner's `unwrap` panic returns some token, so the driving loop's
no-token branch is unreachable; on exhausted remaining input (including
the empty input text) the call returns an End-of-Input token with empty
payload; and running the scanner on the empty input sends exactly one
End-of-Input token and returns success. -/
theorem C10_amended_get_token_total_unless_panic :
    (∀ (st : LexerState) (t : Option LexerToken) (st' : LexerState),
        get_token st = Panicky.ok (t, st') → t.isSome = true)
  ∧ (∀ st : LexerState, st.source = some [] ∨ st.source = Option.none →
      ∃ st', get_token st
        = Panicky.ok (some ⟨TokenType.Eof, TokenData.none, st'.current_pos⟩, st'))
  ∧ start_tokenizing []
      = Panicky.ok (Except.ok (), [⟨TokenType.Eof, TokenData.none, default⟩]) := by
  refine ⟨?_, ?_, rfl⟩
  · intro st t st' h
    rcases get_token_shape st with ⟨msg, hm⟩ | ⟨t0, s0, h0⟩
    · rw [hm] at h
      exact Panicky.noConfusion h
    · rw [h0] at h
      have := (Panicky.ok.inj h)
      rw [← (Prod.mk.injEq _ _ _ _).mp this |>.1]
      rfl
  · intro st hsrc
    rcases hadv : advance (skip_whitespace st) with ⟨oc, st1⟩
    have hoc : oc = Option.none := by
      have hs : (skip_whitespace st).source = some []
          ∨ (skip_whitespace st).source = Option.none := by
        rcases hsrc with h | h
        · left
          simp [skip_whitespace, h, skipWsAux]
        · right
          simp [skip_whitespace, h]
      rcases hs with h | h <;>
        · unfold advance at hadv
          rw [h] at hadv
          exact ((Prod.mk.injEq _ _ _ _).mp (hadv.symm)).1
    subst hoc
    refine ⟨st1, ?_⟩
    unfold get_token
    dsimp only
    rw [hadv]

/-- C10 witness: the amended statement exercised at the empty input — the
call returns the End-of-Input token (so `isSome` holds), and the
exhausted-input clause applies. -/
theorem C10_amended_witness :
    ((some (⟨TokenType.Eof, TokenData.none, default⟩ : LexerToken)).isSome = true)
  ∧ ∃ st', get_token (Lexer.new [])
      = Panicky.ok (some ⟨TokenType.Eof, TokenData.none, st'.current_pos⟩, st') :=
  ⟨C10_amended_get_token_total_unless_panic.1 (Lexer.new [])
      (some ⟨TokenType.Eof, TokenData.none, default⟩) ⟨[], some [], 1, default⟩ rfl,
   C10_amended_get_token_total_unless_panic.2.1 (Lexer.new []) (Or.inl rfl)⟩
